import Mathlib

/-!
Verification development for the FlaskWeb project's authentication core.

The definitions below are a shallow embedding of the Python source:
  * `src/src/exceptions.py`     — the `APIException` hierarchy and `to_dict`
  * `src/src/server.py`         — JWT callbacks and the Flask error handlers
  * `src/src/models/token_blocklist.py` — the revocation store (`TokenBlocklist`)
  * `src/src/models/user.py`    — the `User` document and `delete` override
  * `src/src/listeners.py`      — the `blacklist_user_tokens` signal listener
  * `src/src/routes/auth_routes.py`  — login / logout / refresh / change-password
  * `src/src/routes/admin_routes.py` — the `admin_required` decorator

JSON values and Python runtime values are both modelled by `PyVal`;
Python's `in` operator (membership for lists, substring test for strings,
`TypeError` otherwise) is modelled by `pyIn`.  bcrypt hashing is modelled
by an injective tagging function, which preserves exactly the property the
code relies on: `check_password` succeeds precisely on the hashed password.
-/

namespace FlaskAuth

/-- Python/JSON runtime values, as far as the embedded code manipulates them. -/
inductive PyVal where
  | pstr (s : String)
  | pint (n : Int)
  | pbool (b : Bool)
  | plist (l : List PyVal)
  | pnone

mutual

/-- Structural (Python `==`) equality on `PyVal`. -/
def PyVal.beq : PyVal → PyVal → Bool
  | .pstr a, .pstr b => a == b
  | .pint a, .pint b => a == b
  | .pbool a, .pbool b => a == b
  | .plist a, .plist b => PyVal.beqList a b
  | .pnone, .pnone => true
  | _, _ => false

/-- Pointwise `PyVal.beq` on lists. -/
def PyVal.beqList : List PyVal → List PyVal → Bool
  | [], [] => true
  | x :: xs, y :: ys => PyVal.beq x y && PyVal.beqList xs ys
  | _, _ => false

end

instance : BEq PyVal := ⟨PyVal.beq⟩

/-- `needle` occurs at the head of `hay` (character lists). -/
def charsLead : List Char → List Char → Bool
  | [], _ => true
  | _ :: _, [] => false
  | a :: as, b :: bs => a == b && charsLead as bs

/-- `needle` occurs somewhere inside `hay` (character lists). -/
def charsWithin (needle : List Char) : List Char → Bool
  | [] => charsLead needle []
  | b :: bs => charsLead needle (b :: bs) || charsWithin needle bs

/-- Python `needle in hay` for two strings: substring containment. -/
def strWithin (needle hay : String) : Bool :=
  charsWithin needle.data hay.data

/-- Python's binary `in` operator on `PyVal`s: list membership, string
substring test, `TypeError` (modelled as `Except.error ()`) otherwise. -/
def pyIn (needle container : PyVal) : Except Unit Bool :=
  match container with
  | .plist l => .ok (l.contains needle)
  | .pstr h =>
    match needle with
    | .pstr n => .ok (strWithin n h)
    | _ => .error ()
  | _ => .error ()

/-- `src/src/exceptions.py`, class `APIException`: carries an HTTP status,
a machine-readable code, a message and optional details.  The defaults are
the class attributes of `APIException` itself. -/
structure ApiExc where
  status_code : Int := 500
  error_code : String := "INTERNAL_SERVER_ERROR"
  message : String := "An unexpected error occurred."
  details : Option PyVal := none

/-- `APIException.to_dict`: `{status_code, error_code, message}` plus
`details` when present, as an ordered JSON object. -/
def ApiExc.to_dict (e : ApiExc) : List (String × PyVal) :=
  [("status_code", .pint e.status_code),
   ("error_code", .pstr e.error_code),
   ("message", .pstr e.message)] ++
  (match e.details with
   | some d => [("details", d)]
   | none => [])

/-- `NotFoundException` with an explicit message. -/
def NotFoundException (msg : String) : ApiExc :=
  { status_code := 404, error_code := "NOT_FOUND", message := msg }

/-- `UnauthorizedException` with an explicit message. -/
def UnauthorizedException (msg : String) : ApiExc :=
  { status_code := 401, error_code := "UNAUTHORIZED", message := msg }

/-- `ForbiddenException` with an explicit message. -/
def ForbiddenException (msg : String) : ApiExc :=
  { status_code := 403, error_code := "FORBIDDEN", message := msg }

/-- `BadRequestException` with an explicit message and optional details. -/
def BadRequestException (msg : String) (details : Option PyVal := none) : ApiExc :=
  { status_code := 400, error_code := "BAD_REQUEST", message := msg, details := details }

/-- `ConflictException` with an explicit message. -/
def ConflictException (msg : String) : ApiExc :=
  { status_code := 409, error_code := "CONFLICT", message := msg }

/-- The closed `error_code` taxonomy of spec §7. -/
def taxonomyCodes : List String :=
  ["BAD_REQUEST", "VALIDATION_ERROR", "UNAUTHORIZED", "FORBIDDEN", "NOT_FOUND",
   "CONFLICT", "TOO_MANY_REQUESTS", "INTERNAL_SERVER_ERROR", "SERVICE_UNAVAILABLE"]

/-- Spec §6 error-response shape: the body has the three mandatory keys
`status_code`, `error_code`, `message` and no key beyond those plus an
optional `details`. -/
def hasErrorShape (body : List (String × PyVal)) : Bool :=
  (body.lookup "status_code").isSome &&
  (body.lookup "error_code").isSome &&
  (body.lookup "message").isSome &&
  body.all (fun kv =>
    kv.1 == "status_code" || kv.1 == "error_code" || kv.1 == "message" || kv.1 == "details")

/-- `src/src/models/token_blocklist.py`, `TokenBlocklist`: one revocation
entry, keyed by `jti`, carrying the revoked token's own expiry. -/
structure RevEntry where
  jti : String
  expires_at : Int
deriving DecidableEq, Repr

/-- The revocation store: the `token_blocklist` collection. -/
def RevStore := List RevEntry

/-- `server.py`, `check_if_token_revoked` (the single read path):
`TokenBlocklist.objects(jti=jti).first() is not None`. -/
def is_revoked (store : List RevEntry) (jti : String) : Bool :=
  store.any (fun e => e.jti == jti)

/-- `TokenBlocklist(...).save()` under the `unique=True` index on `jti`:
succeeds by appending when no entry with that `jti` exists, raises
`NotUniqueError` (modelled as `Except.error ()`) when one already does. -/
def blocklistSave (store : List RevEntry) (e : RevEntry) : Except Unit (List RevEntry) :=
  if store.any (fun x => x.jti == e.jti) then .error () else .ok (store ++ [e])

/-- Number of revocation entries recorded for a given `jti`. -/
def countJti (store : List RevEntry) (jti : String) : Nat :=
  (store.filter (fun e => e.jti == jti)).length

/-! ## Token codec and Authorization Guard

Tokens are payloads signed by flask-jwt-extended: a subject identity, a
unique `jti`, an expiry instant, and — only when the caller passed
`additional_claims` — a `roles` claim.  `sigOk` records whether the
signature verifies against the server's key. -/

/-- The decoded claim set of a JWT. -/
structure Claims where
  sub : String
  jti : String
  exp : Int
  rolesClaim : Option PyVal

/-- A token string as received on the wire: its claim set plus whether the
signature segment verifies against the server key. -/
structure Token where
  claims : Claims
  sigOk : Bool

/-- JWT decode (signature and structure only): succeeds exactly when the
signature verifies; revocation state plays no part. -/
def parse (t : Token) : Except Unit Claims :=
  if t.sigOk then .ok t.claims else .error ()

/-- `get_jwt()` — the full claims dictionary exposed to handlers. -/
def Claims.toDict (c : Claims) : List (String × PyVal) :=
  [("sub", .pstr c.sub), ("jti", .pstr c.jti), ("exp", .pint c.exp)] ++
  (match c.rolesClaim with
   | some v => [("roles", v)]
   | none => [])

/-- Outcome of `@jwt_required()` request processing. -/
inductive GuardResult where
  | allow (c : Claims)
  | reject (status : Int) (body : List (String × PyVal))

/-- `server.py`: the 401 body produced by `revoked_token_response`. -/
def revoked_token_response : ApiExc :=
  UnauthorizedException "Token has been revoked."

/-- `server.py`: the 401 body produced by `invalid_token_response`. -/
def invalid_token_response : ApiExc :=
  UnauthorizedException "Signature verification failed or token is malformed."

/-- The `@jwt_required()` pipeline with the callbacks registered in
`server.py`: decode the token (signature), then expiry, then
`check_if_token_revoked`; each failure short-circuits with its 401 body
(the expired case uses flask-jwt-extended's default `{"msg": ...}` body,
which `server.py` does not override). -/
def jwtGuard (store : List RevEntry) (now : Int) (t : Token) : GuardResult :=
  match parse t with
  | .error _ => .reject 401 invalid_token_response.to_dict
  | .ok c =>
    if c.exp ≤ now then
      .reject 401 [("msg", .pstr "Token has expired")]
    else if is_revoked store c.jti then
      .reject 401 revoked_token_response.to_dict
    else
      .allow c

/-- Outcome of the `admin_required` role check, given claims that already
passed `@jwt_required()`. -/
inductive RoleCheck where
  | proceed
  | forbidden (msg : String)
  | typeError
deriving DecidableEq, Repr

/-- `src/src/routes/admin_routes.py`, `admin_required` (the role-check
body): `if "roles" not in current_user_claims or "admin" not in
current_user_claims["roles"]: raise ForbiddenException("Admin access
required.")`.  The membership tests use Python `in`; a `TypeError` raised
by `in` on a non-container claim propagates out of the decorator. -/
def admin_required (claims : List (String × PyVal)) : RoleCheck :=
  match claims.lookup "roles" with
  | none => .forbidden "Admin access required."
  | some v =>
    match pyIn (.pstr "admin") v with
    | .error _ => .typeError
    | .ok b => if b then .proceed else .forbidden "Admin access required."

/-! ## Credential store: the `User` document (`src/src/models/user.py`)

bcrypt is modelled by an injective tagging function: `check_password`
succeeds exactly on the password whose hash is stored, which is the
property the code relies on. -/

/-- Model of `bcrypt.generate_password_hash(...).decode("utf-8")`. -/
def bcryptHash (password : String) : String :=
  "bcrypt$" ++ password

/-- The `User` MongoEngine document. -/
structure Userrec where
  id : String
  username : String
  email : String
  password_hash : String
  role : String
deriving DecidableEq, Repr

/-- `User.set_password`: stores the bcrypt hash of the new password. -/
def Userrec.set_password (u : Userrec) (password : String) : Userrec :=
  { u with password_hash := bcryptHash password }

/-- `User.check_password`: bcrypt comparison of the candidate against the
stored hash. -/
def Userrec.check_password (u : Userrec) (password : String) : Bool :=
  u.password_hash == bcryptHash password

/-- The `users` collection; `User.objects(username=...)` / `(id=...)` are
`List.find?` over it. -/
def UserDb := List Userrec

/-! ## Auth routes (`src/src/routes/auth_routes.py`) -/

/-- `create_access_token(identity=str(user.id), additional_claims=
{"roles": [user.role]})` as called by `login`: the minted access token's
claim set. -/
def loginAccessClaims (u : Userrec) (jti : String) (exp : Int) : Claims :=
  { sub := u.id, jti := jti, exp := exp,
    rolesClaim := some (.plist [.pstr u.role]) }

/-- `create_refresh_token(identity=str(user.id))` as called by `login`:
no `additional_claims`, hence no roles claim. -/
def loginRefreshClaims (u : Userrec) (jti : String) (exp : Int) : Claims :=
  { sub := u.id, jti := jti, exp := exp, rolesClaim := none }

/-- `create_access_token(identity=current_user_id)` as called by the
`refresh` endpoint: no `additional_claims`, hence no roles claim. -/
def refreshAccessClaims (identity : String) (jti : String) (exp : Int) : Claims :=
  { sub := identity, jti := jti, exp := exp, rolesClaim := none }

/-- The parsed JSON body of a login request: `data.get("username")` and
`data.get("password")`.  `none` for the whole body models a missing or
empty (falsy) JSON object. -/
structure LoginBody where
  username : Option String
  password : Option String

/-- Python truthiness of `data.get(field)`: absent and `""` are falsy. -/
def truthyField : Option String → Bool
  | none => false
  | some s => !(s == "")

/-- What a finished login request produced: either tokens or a raised
`APIException`, plus whether the credential store was queried at all. -/
structure LoginOutcome where
  result : Except ApiExc (Claims × Claims)
  storeQueried : Bool

/-- `login` (`auth_routes.py`): reject a missing body or missing/empty
`username`/`password` with `BadRequestException("Username and password are
required")` before any database access; otherwise look up the user by
exact username and check the password, minting access (+roles) and refresh
tokens on success and raising `UnauthorizedException("Invalid username or
password")` otherwise. -/
def login (db : List Userrec) (body : Option LoginBody)
    (jtiA jtiR : String) (expA expR : Int) : LoginOutcome :=
  match body with
  | none =>
    { result := .error (BadRequestException "Username and password are required"),
      storeQueried := false }
  | some data =>
    if !truthyField data.username || !truthyField data.password then
      { result := .error (BadRequestException "Username and password are required"),
        storeQueried := false }
    else
      let uname := data.username.getD ""
      let pw := data.password.getD ""
      match db.find? (fun u => u.username == uname) with
      | some user =>
        if user.check_password pw then
          { result := .ok (loginAccessClaims user jtiA expA,
                           loginRefreshClaims user jtiR expR),
            storeQueried := true }
        else
          { result := .error (UnauthorizedException "Invalid username or password"),
            storeQueried := true }
      | none =>
        { result := .error (UnauthorizedException "Invalid username or password"),
          storeQueried := true }

/-- The response of the `logout` route. -/
structure LogoutResponse where
  status : Int
  message : String
  cookiesUnset : Bool

/-- `logout` (`auth_routes.py`): behind `@jwt_required()`, it builds the
success message and unsets the JWT cookies.  It performs no write to the
revocation store, which is returned unchanged. -/
def logout (store : List RevEntry) (_c : Claims) :
    List RevEntry × LogoutResponse :=
  (store, { status := 200, message := "Logged out successfully", cookiesUnset := true })

/-- The validated body of a change-password request
(`ChangePasswordRequest` in `schemas.py`); `none` models a body pydantic
rejected (missing fields or a `new_password` failing the strength policy),
which `change_password` turns into a 400. -/
structure CPBody where
  current_password : String
  new_password : String

/-- What a finished change-password request produced. -/
structure CPOutcome where
  db : List Userrec
  store : List RevEntry
  result : Except ApiExc String

/-- `change_password` (`auth_routes.py`): validate the body, look the user
up by the token identity, verify `current_password`, then `set_password` +
`save`.  The revocation store is never written; it passes through
unchanged. -/
def change_password (db : List Userrec) (store : List RevEntry)
    (identity : String) (body : Option CPBody) : CPOutcome :=
  match body with
  | none =>
    { db := db, store := store,
      result := .error (BadRequestException "Invalid data") }
  | some data =>
    match db.find? (fun u => u.id == identity) with
    | none =>
      { db := db, store := store,
        result := .error (UnauthorizedException "Invalid current password") }
    | some user =>
      if user.check_password data.current_password then
        { db := db.map (fun u =>
            if u.id == identity then u.set_password data.new_password else u),
          store := store,
          result := .ok "Password updated successfully" }
      else
        { db := db, store := store,
          result := .error (UnauthorizedException "Invalid current password") }

/-! ## User deletion and the revocation listener

`User.delete` (`src/src/models/user.py`) calls `super().delete()` and then
sends the `user_deleted` blinker signal; `listeners.py` connects
`blacklist_user_tokens` to that signal, and blinker delivers a `send`
synchronously to its connected receivers.  (The signal objects themselves
are declared outside the files present here; their dispatch is modelled as
that synchronous call, per the registrations in `listeners.py`.)  The
observable side effects are recorded as an ordered action trace. -/

/-- One observable side effect of a deletion. -/
inductive DelAction where
  | dbDelete (userId : String)
  | revoke (jti : String)
  | logWarn (msg : String)
deriving DecidableEq, Repr

/-- `blacklist_user_tokens` (`listeners.py`): if the request context holds
a JWT, insert its `jti` (with the token's own `exp`) into the blocklist;
a save failure is caught and logged; with no JWT in context it only warns. -/
def blacklist_user_tokens (ctx : Option Claims) (store : List RevEntry)
    (_userId : String) : List RevEntry × List DelAction :=
  match ctx with
  | some c =>
    match blocklistSave store ⟨c.jti, c.exp⟩ with
    | .ok store2 => (store2, [.revoke c.jti])
    | .error _ => (store, [.logWarn "Error blacklisting token"])
  | none => (store, [.logWarn "No JWT in request context for user deletion. Cannot blacklist current token."])

/-- `User.delete` (`user.py`): `super().delete(*args, **kwargs)` removes
the document, and only then is `user_deleted.send(...)` dispatched, which
runs `blacklist_user_tokens`. -/
def userDelete (u : Userrec) (ctx : Option Claims) (db : List Userrec)
    (store : List RevEntry) : List Userrec × List RevEntry × List DelAction :=
  let db2 := db.filter (fun x => !(x.id == u.id))
  let sent := blacklist_user_tokens ctx store u.id
  (db2, sent.1, .dbDelete u.id :: sent.2)

/-- Does the trace contain a revocation attempt at all? -/
def hasRevoke (tr : List DelAction) : Bool :=
  tr.any (fun a => match a with | .revoke _ => true | _ => false)

/-- Does some revocation attempt occur strictly after a database delete?
(The spec demands this never happens: revocation must come before or as
part of the deletion.) -/
def revokeAfterDelete : List DelAction → Bool
  | [] => false
  | .dbDelete _ :: rest => hasRevoke rest || revokeAfterDelete rest
  | _ :: rest => revokeAfterDelete rest

/-! ## `server.py` error handlers -/

/-- An HTTP response: status plus JSON body. -/
structure HttpResp where
  status : Int
  body : List (String × PyVal)

/-- The names `server.py` line 18 imports from `src.exceptions`:
`from src.exceptions import APIException, NotFoundException,
UnauthorizedException, ForbiddenException, BadRequestException,
ValidationError`. -/
def serverExceptionImports : List String :=
  ["APIException", "NotFoundException", "UnauthorizedException",
   "ForbiddenException", "BadRequestException", "ValidationError"]

/-- `handle_api_exception`: `jsonify(error.to_dict()), error.status_code`. -/
def handle_api_exception (e : ApiExc) : HttpResp :=
  ⟨e.status_code, e.to_dict⟩

/-- `not_found_error`: the 404 handler. -/
def not_found_error : HttpResp :=
  ⟨404, (NotFoundException "The requested URL was not found on the server.").to_dict⟩

/-- `ratelimit_handler`: the literal dict `server.py` returns for
`RateLimitExceeded`, with HTTP status 429. -/
def ratelimit_handler (description : String) : HttpResp :=
  ⟨429, [("error_code", .pstr "TOO_MANY_REQUESTS"),
         ("message", .pstr "Too Many Requests"),
         ("details", .pstr description)]⟩

/-- `handle_mongoengine_validation_error`: wraps the collected field
errors in a `BadRequestException("Validation error", details=...)`. -/
def handle_mongoengine_validation_error (details : PyVal) : HttpResp :=
  ⟨400, (BadRequestException "Validation error" (some details)).to_dict⟩

/-- `handle_not_unique_error`: the handler body evaluates the name
`ConflictException`, which resolves only if `server.py` imported it;
otherwise Python raises `NameError` out of the handler (`Except.error`). -/
def handle_not_unique_error (errText : String) : Except Unit HttpResp :=
  if serverExceptionImports.contains "ConflictException" then
    .ok ⟨409, (ConflictException errText).to_dict⟩
  else
    .error ()

/-- `internal_error`: the catch-all `Exception` handler — a default
`APIException().to_dict()` with status 500. -/
def internal_error : HttpResp :=
  ⟨500, ApiExc.to_dict {}⟩

/-- The response the client actually receives when a `NotUniqueError`
reaches Flask: `handle_not_unique_error` runs, and if it raises, the
replacement exception falls through to the generic 500 path. -/
def notUniqueResponse (errText : String) : HttpResp :=
  match handle_not_unique_error errText with
  | .ok r => r
  | .error _ => internal_error

/-- `handle_pymongo_connection_failure`: a 500 with the ad-hoc
`DATABASE_ERROR` code. -/
def handle_pymongo_connection_failure : HttpResp :=
  ⟨500, (ApiExc.to_dict
    { status_code := 500, error_code := "DATABASE_ERROR",
      message := "Database connection error" })⟩

/-- `handle_server_selection_timeout`: a 503 `SERVICE_UNAVAILABLE`. -/
def handle_server_selection_timeout : HttpResp :=
  ⟨503, (ApiExc.to_dict
    { status_code := 503, error_code := "SERVICE_UNAVAILABLE",
      message := "Service temporarily unavailable, please try again later." })⟩

/-- `forbidden_error`: the 403 handler. -/
def forbidden_error (msg : String) : HttpResp :=
  ⟨403, (ForbiddenException msg).to_dict⟩

/-! ## Concrete fixtures used in witnesses and counterexamples -/

/-- A stored admin user (password `Secret123!`). -/
def adminUser : Userrec :=
  ⟨"u1", "boss", "boss@example.com", bcryptHash "Secret123!", "admin"⟩

/-- A stored regular user (password `OldPw123!`). -/
def plainUser : Userrec :=
  ⟨"u2", "alice", "alice@example.com", bcryptHash "OldPw123!", "user"⟩

/-- A claim set for a valid, unexpired access token of `adminUser`. -/
def sampleClaims : Claims :=
  { sub := "u1", jti := "j1", exp := 100, rolesClaim := some (.plist [.pstr "admin"]) }

/-- `sampleClaims` wrapped as a correctly signed token. -/
def sampleToken : Token := ⟨sampleClaims, true⟩

/-- Every `APIException.to_dict` body has the mandatory three keys and no
key outside the permitted four. -/
lemma to_dict_hasErrorShape (e : ApiExc) : hasErrorShape e.to_dict = true := by
  cases h : e.details <;> simp [ApiExc.to_dict, hasErrorShape, h]

/-! ## Claims -/

/-- C3: once a token's jti is in the revocation store, the Guard check of
that (well-signed, unexpired) token rejects it with the 401
"Token has been revoked." body, while `parse` alone still succeeds. -/
theorem revoked_token_always_rejected (store : List RevEntry) (now : Int)
    (t : Token) (hsig : t.sigOk = true) (hexp : now < t.claims.exp)
    (hrev : is_revoked store t.claims.jti = true) :
    jwtGuard store now t = .reject 401 revoked_token_response.to_dict ∧
    parse t = .ok t.claims := by
  have hnle : ¬ t.claims.exp ≤ now := not_le.mpr hexp
  constructor
  · simp [jwtGuard, parse, hsig, hnle, hrev]
  · simp [parse, hsig]

/-- Witness for C3 at a concrete revoked token. -/
theorem revoked_token_always_rejected_witness :
    jwtGuard [⟨"j1", 100⟩] 0 sampleToken =
      .reject 401 revoked_token_response.to_dict ∧
    parse sampleToken = .ok sampleClaims :=
  revoked_token_always_rejected [⟨"j1", 100⟩] 0 sampleToken rfl
    (by norm_num [sampleToken, sampleClaims]) (by decide)

/-- C10: a login request with a missing body or a missing/empty username
or password is rejected with the 400 `BAD_REQUEST` exception before the
credential store is ever queried. -/
theorem login_missing_fields_bad_request (db : List Userrec)
    (body : Option LoginBody) (jtiA jtiR : String) (expA expR : Int)
    (hbad : body = none ∨ ∃ d, body = some d ∧
      (truthyField d.username = false ∨ truthyField d.password = false)) :
    (login db body jtiA jtiR expA expR).result =
      .error (BadRequestException "Username and password are required") ∧
    (login db body jtiA jtiR expA expR).storeQueried = false ∧
    (BadRequestException "Username and password are required").status_code = 400 ∧
    (BadRequestException "Username and password are required").error_code = "BAD_REQUEST" := by
  rcases hbad with h | ⟨d, hd, hf⟩
  · subst h
    exact ⟨rfl, rfl, rfl, rfl⟩
  · subst hd
    have hc : (!truthyField d.username || !truthyField d.password) = true := by
      rcases hf with h | h <;> simp [h]
    refine ⟨?_, ?_, rfl, rfl⟩ <;> simp [login, hc]

/-- Witness for C10: a body with an empty password. -/
theorem login_missing_fields_bad_request_witness :
    (login [adminUser] (some ⟨some "boss", some ""⟩) "j1" "j2" 100 200).result =
      .error (BadRequestException "Username and password are required") ∧
    (login [adminUser] (some ⟨some "boss", some ""⟩) "j1" "j2" 100 200).storeQueried = false ∧
    (BadRequestException "Username and password are required").status_code = 400 ∧
    (BadRequestException "Username and password are required").error_code = "BAD_REQUEST" :=
  login_missing_fields_bad_request [adminUser] (some ⟨some "boss", some ""⟩)
    "j1" "j2" 100 200 (Or.inr ⟨⟨some "boss", some ""⟩, rfl, Or.inr rfl⟩)

/-- C1 counterexample: after a logout with access-token jti `"j1"` and an
empty revocation store, the store is still empty and `is_revoked "j1"` is
still `false`, even though the route returned 200 — the claim that logout
revokes the current access token's jti is false. -/
theorem logout_revokes_nothing_cex :
    (logout [] sampleClaims).1 = [] ∧
    is_revoked (logout [] sampleClaims).1 "j1" = false ∧
    (logout [] sampleClaims).2.status = 200 := by
  exact ⟨rfl, rfl, rfl⟩

/-- C1 amended: the authenticated logout route returns 200 and unsets the
JWT cookies, but performs no revocation at all — the revocation store is
returned unchanged and `is_revoked` is unaffected for every jti. -/
theorem logout_returns_200_without_revoking (store : List RevEntry) (c : Claims) :
    (logout store c).1 = store ∧
    (logout store c).2.status = 200 ∧
    (logout store c).2.cookiesUnset = true ∧
    ∀ j, is_revoked (logout store c).1 j = is_revoked store j :=
  ⟨rfl, rfl, rfl, fun _ => rfl⟩

/-- C2 counterexample: a successful change-password request (correct
current password) leaves the revocation store untouched — the jti of the
token used for the request (`"j1"`) is still unrevoked afterwards, so a
subsequent request with the pre-change token is NOT rejected. -/
theorem change_password_revokes_nothing_cex :
    (change_password [plainUser] [] "u2" (some ⟨"OldPw123!", "NewPw456!"⟩)).result =
      .ok "Password updated successfully" ∧
    (change_password [plainUser] [] "u2" (some ⟨"OldPw123!", "NewPw456!"⟩)).store = [] ∧
    is_revoked (change_password [plainUser] [] "u2"
      (some ⟨"OldPw123!", "NewPw456!"⟩)).store "j1" = false := by
  exact ⟨rfl, rfl, rfl⟩

/-- C2 amended: when the current password verifies, `change_password`
updates the stored `password_hash` (via `set_password`), but it performs
no revocation: the revocation store passes through unchanged, so the
pre-change token's jti is exactly as revoked (or not) as before. -/
theorem change_password_updates_hash_only (db : List Userrec)
    (store : List RevEntry) (identity : String) (body : CPBody) (user : Userrec)
    (hfind : db.find? (fun u => u.id == identity) = some user)
    (hpw : user.check_password body.current_password = true) :
    (change_password db store identity (some body)).result =
      .ok "Password updated successfully" ∧
    (change_password db store identity (some body)).store = store ∧
    (change_password db store identity (some body)).db =
      db.map (fun u => if u.id == identity then u.set_password body.new_password else u) ∧
    (user.set_password body.new_password).check_password body.new_password = true := by
  have hpw2 : user.password_hash = bcryptHash body.current_password := by
    simpa [Userrec.check_password] using hpw
  refine ⟨?_, ?_, ?_, ?_⟩ <;>
    simp [change_password, hfind, hpw2, Userrec.set_password, Userrec.check_password]

/-- Witness for the amended C2 at a concrete user and store. -/
theorem change_password_updates_hash_only_witness :
    (change_password [plainUser] [⟨"jx", 50⟩] "u2"
      (some ⟨"OldPw123!", "NewPw456!"⟩)).result = .ok "Password updated successfully" ∧
    (change_password [plainUser] [⟨"jx", 50⟩] "u2"
      (some ⟨"OldPw123!", "NewPw456!"⟩)).store = [⟨"jx", 50⟩] ∧
    (change_password [plainUser] [⟨"jx", 50⟩] "u2"
      (some ⟨"OldPw123!", "NewPw456!"⟩)).db =
      [plainUser].map (fun u => if u.id == "u2" then u.set_password "NewPw456!" else u) ∧
    (plainUser.set_password "NewPw456!").check_password "NewPw456!" = true :=
  change_password_updates_hash_only [plainUser] [⟨"jx", 50⟩] "u2"
    ⟨"OldPw123!", "NewPw456!"⟩ plainUser (by decide) (by decide)

/-- C4 counterexample: the refresh endpoint mints its new access token
with `create_access_token(identity=current_user_id)` and no
`additional_claims`, so for the stored admin user the minted token's roles
claim is absent — not `["admin"]` — and `admin_required` rejects it with
403 immediately after issuance. -/
theorem refresh_access_token_lacks_roles_cex :
    (refreshAccessClaims adminUser.id "j2" 200).rolesClaim = none ∧
    (refreshAccessClaims adminUser.id "j2" 200).rolesClaim ≠
      some (.plist [.pstr adminUser.role]) ∧
    admin_required (refreshAccessClaims adminUser.id "j2" 200).toDict =
      .forbidden "Admin access required." := by
  refine ⟨rfl, ?_, by decide⟩
  intro h
  simp [refreshAccessClaims] at h

/-- C4 amended: only the login route embeds `roles=[user.role]` in the
access token it mints (and Guard role validation immediately after a login
issuance succeeds for an admin); the access token minted at the refresh
endpoint carries no roles claim at all. -/
theorem access_roles_embedded_at_login_only (u : Userrec)
    (jti jti2 identity : String) (exp exp2 : Int) :
    (loginAccessClaims u jti exp).rolesClaim = some (.plist [.pstr u.role]) ∧
    (refreshAccessClaims identity jti2 exp2).rolesClaim = none ∧
    (u.role = "admin" →
      admin_required (loginAccessClaims u jti exp).toDict = .proceed) := by
  refine ⟨rfl, rfl, fun h => ?_⟩
  have hlit : loginAccessClaims u jti exp =
      { sub := u.id, jti := jti, exp := exp,
        rolesClaim := some (.plist [.pstr "admin"]) } := by
    simp [loginAccessClaims, h]
  rw [hlit]
  rfl

/-- Witness for the amended C4 at the stored admin user. -/
theorem access_roles_embedded_at_login_only_witness :
    (loginAccessClaims adminUser "j1" 100).rolesClaim =
      some (.plist [.pstr adminUser.role]) ∧
    (refreshAccessClaims "u9" "j2" 200).rolesClaim = none ∧
    admin_required (loginAccessClaims adminUser "j1" 100).toDict = .proceed := by
  have h := access_roles_embedded_at_login_only adminUser "j1" "j2" "u9" 100 200
  exact ⟨h.1, h.2.1, h.2.2 rfl⟩

/-- C5 counterexample: the role check is not fail-closed over malformed
roles claims.  A string-valued claim is tested with Python's substring
`in`: `"admin" in "badminton"` is true, so the claim `"badminton"` grants
admin access; and an integer-valued claim makes `in` raise `TypeError`
(surfacing as a 500), not `Forbidden`. -/
theorem admin_required_malformed_claim_cex :
    admin_required [("roles", .pstr "badminton")] = .proceed ∧
    admin_required [("roles", .pint 3)] = .typeError := by
  decide

/-- C5 amended: for a missing roles claim or a list-valued claim the check
is fail-closed (absent claim or a list without `"admin"` gives Forbidden,
a list containing `"admin"` proceeds); but a string-valued claim is tested
by substring containment, so a malformed string containing `"admin"`
grants access, and a non-container claim yields a `TypeError`, not
Forbidden. -/
theorem admin_required_characterization (claims : List (String × PyVal)) :
    (claims.lookup "roles" = none →
      admin_required claims = .forbidden "Admin access required.") ∧
    (∀ l, claims.lookup "roles" = some (.plist l) →
      admin_required claims =
        if l.contains (PyVal.pstr "admin") then .proceed
        else .forbidden "Admin access required.") ∧
    (∀ s, claims.lookup "roles" = some (.pstr s) →
      admin_required claims =
        if strWithin "admin" s then .proceed
        else .forbidden "Admin access required.") ∧
    (∀ n, claims.lookup "roles" = some (.pint n) →
      admin_required claims = .typeError) := by
  refine ⟨fun h => ?_, fun l h => ?_, fun s h => ?_, fun n h => ?_⟩
  · simp [admin_required, h]
  · simp only [admin_required, h, pyIn]
  · simp only [admin_required, h, pyIn]
  · simp [admin_required, h, pyIn]

/-- Witness for the amended C5: a list claim without `"admin"` is refused,
a list claim with `"admin"` proceeds. -/
theorem admin_required_characterization_witness :
    admin_required [("roles", .plist [.pstr "user"])] =
      .forbidden "Admin access required." ∧
    admin_required [("roles", .plist [.pstr "admin"])] = .proceed := by
  constructor
  · have h := (admin_required_characterization [("roles", .plist [.pstr "user"])]).2.1
      [.pstr "user"] rfl
    simpa using h
  · have h := (admin_required_characterization [("roles", .plist [.pstr "admin"])]).2.1
      [.pstr "admin"] rfl
    simpa using h

/-- C6 counterexample: with a token attached to the request context,
deleting a user produces the side-effect trace
`[dbDelete "u1", revoke "j1"]` — the revocation attempt occurs strictly
after the database delete has been performed (`super().delete()` runs
before `user_deleted.send`), contradicting the required before-or-as-part
ordering. -/
theorem user_delete_revokes_after_commit_cex :
    (userDelete adminUser (some sampleClaims) [adminUser] []).2.2 =
      [.dbDelete "u1", .revoke "j1"] ∧
    revokeAfterDelete (userDelete adminUser (some sampleClaims) [adminUser] []).2.2 =
      true := by
  decide

/-- C6 amended: deletion removes the user first and only then attempts the
revocation (the `user_deleted` signal is sent after `super().delete()`),
so the revocation lands after the deletion commit; with no token in
context the deletion still succeeds and the skipped revocation is only a
warning log, never a failure. -/
theorem user_delete_ordering (u : Userrec) (db : List Userrec)
    (store : List RevEntry) (c : Claims)
    (hnew : is_revoked store c.jti = false) :
    (userDelete u (some c) db store).2.2 = [.dbDelete u.id, .revoke c.jti] ∧
    (userDelete u (some c) db store).2.1 = store ++ [⟨c.jti, c.exp⟩] ∧
    revokeAfterDelete (userDelete u (some c) db store).2.2 = true ∧
    (userDelete u none db store).1 = db.filter (fun x => !(x.id == u.id)) ∧
    (userDelete u none db store).2.1 = store ∧
    hasRevoke (userDelete u none db store).2.2 = false := by
  have hsave : blocklistSave store ⟨c.jti, c.exp⟩ = .ok (store ++ [⟨c.jti, c.exp⟩]) := by
    simp only [blocklistSave]
    rw [show store.any (fun x => x.jti == c.jti) = false from hnew]
    rfl
  refine ⟨?_, ?_, ?_, rfl, rfl, rfl⟩ <;>
    simp [userDelete, blacklist_user_tokens, hsave, revokeAfterDelete, hasRevoke]

/-- Witness for the amended C6 at a concrete user, token and store. -/
theorem user_delete_ordering_witness :
    (userDelete adminUser (some sampleClaims) [adminUser] [⟨"jx", 50⟩]).2.2 =
      [.dbDelete "u1", .revoke "j1"] ∧
    (userDelete adminUser (some sampleClaims) [adminUser] [⟨"jx", 50⟩]).2.1 =
      [⟨"jx", 50⟩] ++ [⟨"j1", 100⟩] ∧
    revokeAfterDelete
      (userDelete adminUser (some sampleClaims) [adminUser] [⟨"jx", 50⟩]).2.2 = true ∧
    (userDelete adminUser none [adminUser] [⟨"jx", 50⟩]).1 =
      [adminUser].filter (fun x => !(x.id == adminUser.id)) ∧
    (userDelete adminUser none [adminUser] [⟨"jx", 50⟩]).2.1 = [⟨"jx", 50⟩] ∧
    hasRevoke (userDelete adminUser none [adminUser] [⟨"jx", 50⟩]).2.2 = false :=
  user_delete_ordering adminUser [adminUser] [⟨"jx", 50⟩] sampleClaims (by decide)

/-- C7: the claim is right and the code is wrong.  `server.py` line 18
does not import `ConflictException`, so `handle_not_unique_error` raises
`NameError` when a `NotUniqueError` reaches Flask, and the client receives
the generic 500 `INTERNAL_SERVER_ERROR` body instead of the intended 409
`CONFLICT`. -/
theorem not_unique_error_yields_500 (errText : String) :
    serverExceptionImports.contains "ConflictException" = false ∧
    handle_not_unique_error errText = .error () ∧
    notUniqueResponse errText = internal_error ∧
    (notUniqueResponse errText).status = 500 ∧
    (notUniqueResponse errText).body.lookup "error_code" =
      some (.pstr "INTERNAL_SERVER_ERROR") ∧
    (notUniqueResponse errText).status ≠ 409 := by
  refine ⟨rfl, rfl, rfl, rfl, rfl, ?_⟩
  show (500 : Int) ≠ 409
  decide

/-- C8 counterexample: the rate-limit error path does not follow the
mandatory body shape — its JSON body has no `status_code` key at all. -/
theorem ratelimit_body_shape_cex :
    hasErrorShape (ratelimit_handler "5 per minute").body = false ∧
    (ratelimit_handler "5 per minute").body.lookup "status_code" = none := by
  exact ⟨rfl, rfl⟩

/-- C8 amended: every error path that goes through `APIException.to_dict`
(404, validation, API exceptions, the DB handlers, the catch-all 500, 403)
has exactly the `{status_code, error_code, message, details?}` shape with
a taxonomy `error_code` — except that the rate-limit handler's body omits
`status_code`, and the `ConnectionFailure` handler uses the code
`DATABASE_ERROR`, which is outside the §7 taxonomy. -/
theorem error_response_shape (e : ApiExc) (d : PyVal) (msg desc : String) :
    hasErrorShape (handle_api_exception e).body = true ∧
    hasErrorShape not_found_error.body = true ∧
    hasErrorShape (handle_mongoengine_validation_error d).body = true ∧
    hasErrorShape internal_error.body = true ∧
    hasErrorShape handle_pymongo_connection_failure.body = true ∧
    hasErrorShape handle_server_selection_timeout.body = true ∧
    hasErrorShape (forbidden_error msg).body = true ∧
    taxonomyCodes.contains "NOT_FOUND" = true ∧
    taxonomyCodes.contains "TOO_MANY_REQUESTS" = true ∧
    hasErrorShape (ratelimit_handler desc).body = false ∧
    taxonomyCodes.contains "DATABASE_ERROR" = false := by
  refine ⟨to_dict_hasErrorShape e, to_dict_hasErrorShape _,
    to_dict_hasErrorShape _, to_dict_hasErrorShape _, to_dict_hasErrorShape _,
    to_dict_hasErrorShape _, to_dict_hasErrorShape _, rfl, rfl, rfl, rfl⟩

/-- Witness for the amended C8 at a concrete exception and description. -/
theorem error_response_shape_witness :
    hasErrorShape (handle_api_exception (ConflictException "dup")).body = true ∧
    hasErrorShape not_found_error.body = true ∧
    hasErrorShape (handle_mongoengine_validation_error (.pstr "bad field")).body = true ∧
    hasErrorShape internal_error.body = true ∧
    hasErrorShape handle_pymongo_connection_failure.body = true ∧
    hasErrorShape handle_server_selection_timeout.body = true ∧
    hasErrorShape (forbidden_error "no").body = true ∧
    taxonomyCodes.contains "NOT_FOUND" = true ∧
    taxonomyCodes.contains "TOO_MANY_REQUESTS" = true ∧
    hasErrorShape (ratelimit_handler "5 per minute").body = false ∧
    taxonomyCodes.contains "DATABASE_ERROR" = false :=
  error_response_shape (ConflictException "dup") (.pstr "bad field") "no" "5 per minute"

/-- C9 counterexample: inserting a revocation entry for a jti already in
the store is not a no-op — the `unique=True` index makes the second save
raise `NotUniqueError` — though the store does hold exactly one record for
the jti. -/
theorem duplicate_revoke_raises_cex :
    blocklistSave [⟨"j1", 100⟩] ⟨"j1", 100⟩ = .error () ∧
    countJti [⟨"j1", 100⟩] "j1" = 1 := by
  exact ⟨rfl, rfl⟩

/-- C9 amended: the blocklist insert is a plain save under a unique index:
inserting a fresh jti succeeds and brings its record count from n to n+1,
while inserting an already-present jti surfaces `NotUniqueError` to the
caller (it is an error, not a no-op) and leaves the store — hence its
single logical record for that jti — unchanged. -/
theorem revoke_duplicate_raises (store : List RevEntry) (e : RevEntry) :
    (is_revoked store e.jti = true → blocklistSave store e = .error ()) ∧
    (is_revoked store e.jti = false →
      blocklistSave store e = .ok (store ++ [e]) ∧
      countJti (store ++ [e]) e.jti = countJti store e.jti + 1) := by
  constructor
  · intro h
    simp only [blocklistSave]
    rw [show store.any (fun x => x.jti == e.jti) = true from h]
    rfl
  · intro h
    constructor
    · simp only [blocklistSave]
      rw [show store.any (fun x => x.jti == e.jti) = false from h]
      rfl
    · simp [countJti, List.filter_append]

/-- Witness for the amended C9: both branches at concrete stores. -/
theorem revoke_duplicate_raises_witness :
    blocklistSave [⟨"j1", 100⟩] ⟨"j1", 100⟩ = .error () ∧
    blocklistSave [⟨"j0", 50⟩] ⟨"j1", 100⟩ = .ok ([⟨"j0", 50⟩] ++ [⟨"j1", 100⟩]) ∧
    countJti ([⟨"j0", 50⟩] ++ [⟨"j1", 100⟩]) "j1" = countJti [⟨"j0", 50⟩] "j1" + 1 := by
  have h1 := (revoke_duplicate_raises [⟨"j1", 100⟩] ⟨"j1", 100⟩).1 (by decide)
  have h2 := (revoke_duplicate_raises [⟨"j0", 50⟩] ⟨"j1", 100⟩).2 (by decide)
  exact ⟨h1, h2.1, h2.2⟩

end FlaskAuth
